import Mathlib

/-!
Verification development for the kvasir engine core
(src/engine.rs, src/staticlayer.rs).

The Rust code is shallowly embedded: GLSL / f32 arithmetic is modelled over
the rationals (exact arithmetic, with floor and fract as in the shader
language), usize as Nat, i32 as Int, and calls into the external graphics
collaborator (the gpu crate) as an emitted command trace over an abstract
command type, with allocation outcomes supplied by an oracle record.
-/

namespace Kvasir

/-- Two-component vector, mirroring Vec2 of the vector macros used by the
engine (vec2!). -/
structure Vec2 (α : Type) where
  x : α
  y : α
deriving DecidableEq, Repr

/-- Four-component vector, mirroring GLSL vec4 (used for sampled colors). -/
structure Vec4 (α : Type) where
  x : α
  y : α
  z : α
  w : α
deriving DecidableEq, Repr

/-- Window rectangle, mirroring Rect of i32: position (x,y) and size (sx,sy). -/
structure Rect where
  x : ℤ
  y : ℤ
  sx : ℤ
  sy : ℤ
deriving DecidableEq, Repr

/-- GLSL fract: fractional part, x - floor x. -/
def fract (q : ℚ) : ℚ := q - ⌊q⌋

/-- The fractional part is nonnegative. -/
theorem fract_nonneg (q : ℚ) : 0 ≤ fract q :=
  sub_nonneg.mpr (Int.floor_le q)

/-- The fractional part is below one. -/
theorem fract_lt_one (q : ℚ) : fract q < 1 :=
  sub_lt_iff_lt_add.mpr (by linarith [Int.lt_floor_add_one q])

/-- The atlas is a fixed 32 x 32 grid of tiles: constant TILES_PER_ATLAS in
the map fragment shader map_fs (engine.rs line 135). -/
def TILES_PER_ATLAS : ℕ := 32

/-- All intermediate values and the output of one evaluation of the map
fragment shader map_fs (engine.rs lines 127-154). -/
structure MapFSOut where
  tc : Vec2 ℚ
  mc : Vec2 ℚ
  tile_index : ℕ
  tsc : Vec2 ℚ
  ftsc : Vec2 ℚ
  ntsc : Vec2 ℚ
  fs_output : Vec4 ℚ
deriving DecidableEq

/-- Embedding of the map fragment shader map_fs (engine.rs lines 138-153),
evaluated at one fragment coordinate f_tex.  The usampler2D map_texture is
modelled as a function returning the .x component of the sampled texel (an
unsigned tile index); the sampler2D atlas_texture as a function returning a
color.  Vector arithmetic is componentwise as in GLSL; % and / on the uint
tile_index are Nat mod and truncating division, as on GLSL uint (no overflow
is possible here since both operands are below 2^32). -/
def map_fs (offset tiles_per_pixel pixels_per_layer maps_per_tile : Vec2 ℚ)
    (map_texture : Vec2 ℚ → ℕ) (atlas_texture : Vec2 ℚ → Vec4 ℚ)
    (f_tex : Vec2 ℚ) : MapFSOut :=
  let tc : Vec2 ℚ := ⟨f_tex.x * pixels_per_layer.x * tiles_per_pixel.x + offset.x,
                      f_tex.y * pixels_per_layer.y * tiles_per_pixel.y + offset.y⟩
  let mc : Vec2 ℚ := ⟨(⌊tc.x⌋ : ℚ) * maps_per_tile.x,
                      (⌊tc.y⌋ : ℚ) * maps_per_tile.y⟩
  let tile_index : ℕ := map_texture mc
  let tsc : Vec2 ℚ := ⟨(tile_index % TILES_PER_ATLAS : ℕ),
                       (tile_index / TILES_PER_ATLAS : ℕ)⟩
  let ftsc : Vec2 ℚ := ⟨tsc.x + fract tc.x, tsc.y + fract tc.y⟩
  let ntsc : Vec2 ℚ := ⟨ftsc.x / (TILES_PER_ATLAS : ℚ),
                        ftsc.y / (TILES_PER_ATLAS : ℚ)⟩
  { tc := tc, mc := mc, tile_index := tile_index, tsc := tsc, ftsc := ftsc,
    ntsc := ntsc, fs_output := atlas_texture ntsc }

/-- C1: for every tile index sampled from the map texture, map_fs resolves it
to atlas column index mod 32 (the x component of tsc) and atlas row
index / 32 (the y component), and outputs the normalized atlas coordinate
((col + fract tc.x)/32, (row + fract tc.y)/32); concretely index 0 resolves
to (col 0, row 0), index 33 to (col 1, row 1) and index 1023 to
(col 31, row 31). -/
theorem map_fs_atlas_resolution
    (offset tiles_per_pixel pixels_per_layer maps_per_tile : Vec2 ℚ)
    (map_texture : Vec2 ℚ → ℕ) (atlas_texture : Vec2 ℚ → Vec4 ℚ)
    (f_tex : Vec2 ℚ) :
    (map_fs offset tiles_per_pixel pixels_per_layer maps_per_tile
        map_texture atlas_texture f_tex).tsc =
      ⟨((map_fs offset tiles_per_pixel pixels_per_layer maps_per_tile
          map_texture atlas_texture f_tex).tile_index % TILES_PER_ATLAS : ℕ),
       ((map_fs offset tiles_per_pixel pixels_per_layer maps_per_tile
          map_texture atlas_texture f_tex).tile_index / TILES_PER_ATLAS : ℕ)⟩ ∧
    (map_fs offset tiles_per_pixel pixels_per_layer maps_per_tile
        map_texture atlas_texture f_tex).ntsc =
      ⟨(((map_fs offset tiles_per_pixel pixels_per_layer maps_per_tile
            map_texture atlas_texture f_tex).tile_index % TILES_PER_ATLAS : ℕ) +
          fract (map_fs offset tiles_per_pixel pixels_per_layer maps_per_tile
            map_texture atlas_texture f_tex).tc.x) / (TILES_PER_ATLAS : ℚ),
       (((map_fs offset tiles_per_pixel pixels_per_layer maps_per_tile
            map_texture atlas_texture f_tex).tile_index / TILES_PER_ATLAS : ℕ) +
          fract (map_fs offset tiles_per_pixel pixels_per_layer maps_per_tile
            map_texture atlas_texture f_tex).tc.y) / (TILES_PER_ATLAS : ℚ)⟩ ∧
    (map_fs ⟨0,0⟩ ⟨0,0⟩ ⟨0,0⟩ ⟨0,0⟩ (fun _ => 0) atlas_texture ⟨0,0⟩).tsc =
      ⟨0, 0⟩ ∧
    (map_fs ⟨0,0⟩ ⟨0,0⟩ ⟨0,0⟩ ⟨0,0⟩ (fun _ => 33) atlas_texture ⟨0,0⟩).tsc =
      ⟨1, 1⟩ ∧
    (map_fs ⟨0,0⟩ ⟨0,0⟩ ⟨0,0⟩ ⟨0,0⟩ (fun _ => 1023) atlas_texture ⟨0,0⟩).tsc =
      ⟨31, 31⟩ := by
  refine ⟨rfl, rfl, ?_, ?_, ?_⟩ <;> simp [map_fs, TILES_PER_ATLAS]

/-- C6: map_fs computes the continuous tile-space coordinate
tc = f_tex * pixels_per_layer * tiles_per_pixel + offset (componentwise),
samples the tile-index map at mc = floor tc * maps_per_tile, and the sub-tile
offset fract tc lies in the interval from 0 inclusive to 1 exclusive in each
component. -/
theorem map_fs_tile_coordinates
    (offset tiles_per_pixel pixels_per_layer maps_per_tile : Vec2 ℚ)
    (map_texture : Vec2 ℚ → ℕ) (atlas_texture : Vec2 ℚ → Vec4 ℚ)
    (f_tex : Vec2 ℚ) :
    (map_fs offset tiles_per_pixel pixels_per_layer maps_per_tile
        map_texture atlas_texture f_tex).tc =
      ⟨f_tex.x * pixels_per_layer.x * tiles_per_pixel.x + offset.x,
       f_tex.y * pixels_per_layer.y * tiles_per_pixel.y + offset.y⟩ ∧
    (map_fs offset tiles_per_pixel pixels_per_layer maps_per_tile
        map_texture atlas_texture f_tex).mc =
      ⟨(⌊(map_fs offset tiles_per_pixel pixels_per_layer maps_per_tile
            map_texture atlas_texture f_tex).tc.x⌋ : ℚ) * maps_per_tile.x,
       (⌊(map_fs offset tiles_per_pixel pixels_per_layer maps_per_tile
            map_texture atlas_texture f_tex).tc.y⌋ : ℚ) * maps_per_tile.y⟩ ∧
    (map_fs offset tiles_per_pixel pixels_per_layer maps_per_tile
        map_texture atlas_texture f_tex).tile_index =
      map_texture (map_fs offset tiles_per_pixel pixels_per_layer maps_per_tile
        map_texture atlas_texture f_tex).mc ∧
    (0 ≤ fract (map_fs offset tiles_per_pixel pixels_per_layer maps_per_tile
        map_texture atlas_texture f_tex).tc.x ∧
     fract (map_fs offset tiles_per_pixel pixels_per_layer maps_per_tile
        map_texture atlas_texture f_tex).tc.x < 1) ∧
    (0 ≤ fract (map_fs offset tiles_per_pixel pixels_per_layer maps_per_tile
        map_texture atlas_texture f_tex).tc.y ∧
     fract (map_fs offset tiles_per_pixel pixels_per_layer maps_per_tile
        map_texture atlas_texture f_tex).tc.y < 1) := by
  exact ⟨rfl, rfl, rfl, ⟨fract_nonneg _, fract_lt_one _⟩,
    ⟨fract_nonneg _, fract_lt_one _⟩⟩

/-- Render-target handles the engine code binds with bind_target: the
engine's own compositing framebuffer, the engine window itself, or a static
layer's private framebuffer. -/
inductive Target
  | engineFramebuffer
  | window
  | layerFramebuffer
deriving DecidableEq, Repr

/-- Texture handles the engine code binds with bind_texture: the engine's
compositing framebuffer used as a sampler source, a layer's output
framebuffer, or a texture uploaded from an image. -/
inductive Tex
  | engineFB
  | layerOutput (i : ℕ)
  | texture2d (size : Vec2 ℕ)
deriving DecidableEq, Repr

/-- The four shader programs built in Engine::new (engine.rs lines 48-158). -/
inductive ShaderKind
  | layer_shader
  | final_shader
  | static_shader
  | map_shader
deriving DecidableEq, Repr

/-- Uniform slots set through set_uniform in the embedded code paths. -/
inductive Uniform
  | u_texture
  | u_scale
deriving DecidableEq, Repr

/-- One call into the external gpu::Graphics collaborator.  The engine core
only emits these; their effect on the device is outside the embedded code. -/
inductive Cmd
  | bindTarget (t : Target)
  | bindTexture (slot : ℕ) (t : Tex)
  | bindShader (s : ShaderKind)
  | setUniform1i (u : Uniform) (v : ℕ)
  | setUniform2f (u : Uniform) (v : Vec2 ℚ)
  | bindVertexBuffer
  | drawTriangleFan (n : ℕ)
  | clear (c : ℕ)
deriving DecidableEq, Repr

/-- Allocation oracle standing for the external graphics device: which
framebuffer sizes, shader programs, texture sizes and vertex buffers it can
allocate.  Modelled from the spec: the GraphicsContext collaborator owns the
native device and each allocation primitive may fail. -/
structure Graphics where
  fb_alloc_ok : Vec2 ℕ → Bool
  shader_ok : ShaderKind → Bool
  tex_alloc_ok : Vec2 ℕ → Bool
  vb_ok : Bool

/-- A color-target framebuffer with its pixel size. -/
structure Framebuffer where
  size : Vec2 ℕ
deriving DecidableEq, Repr

/-- Modelled from the spec: gpu::Framebuffer::new (external collaborator, not
under src/) allocates an off-screen color target of the requested size and
may fail; on success the created framebuffer has exactly the requested
dimensions. -/
def Framebuffer.new (g : Graphics) (size : Vec2 ℕ) : Option Framebuffer :=
  if g.fb_alloc_ok size then some ⟨size⟩ else none

/-- A decoded image (Mat of ARGB8 pixels), reduced to its dimensions; the
pixel contents play no role in any claim. -/
structure Mat where
  size : Vec2 ℕ
deriving DecidableEq, Repr

/-- Modelled from the spec: gpu::Texture2D::new_from_mat (external
collaborator) uploads a decoded image into a texture of the image's size and
may fail. -/
def Texture2D.new_from_mat (g : Graphics) (image : Mat) : Option Tex :=
  if g.tex_alloc_ok image.size then some (Tex.texture2d image.size) else none

/-- Modelled from the spec: gpu::Shader::new (external collaborator) compiles
one of the four embedded shader programs and may fail. -/
def Shader.new (g : Graphics) (k : ShaderKind) : Option ShaderKind :=
  if g.shader_ok k then some k else none

/-- Modelled from the spec: gpu::VertexBuffer::new_from_vec (external
collaborator) uploads the vertex list and may fail. -/
def VertexBuffer.new_from_vec (g : Graphics) (_data : List (Vec2 ℚ)) :
    Option Unit :=
  if g.vb_ok then some () else none

/-- The constant full-screen quad built in Engine::new (engine.rs lines
160-165). -/
def quad : List (Vec2 ℚ) := [⟨0, 0⟩, ⟨1, 0⟩, ⟨1, 1⟩, ⟨0, 1⟩]

/-- The engine error type (engine.rs lines 24-26): a single Generic variant. -/
inductive EngineError
  | Generic
deriving DecidableEq, Repr

/-- The state of an Engine relevant to the claims: the compositing
framebuffer, the window rectangle (core.r) and the running flag.  The shader
and vertex-buffer handles are compile-time constants in the model and are
not stored. -/
structure EngineModel where
  framebuffer : Framebuffer
  rect : Rect
  running : Bool
deriving DecidableEq, Repr

/-- Conversion for the usize-to-i32 cast (winsize.x() as i32) in Engine::new:
truncation to 32 bits, then reinterpretation as a signed value. -/
def i32_of_usize (n : ℕ) : ℤ :=
  if n % 2 ^ 32 < 2 ^ 31 then (n % 2 ^ 32 : ℤ) else (n % 2 ^ 32 : ℤ) - 2 ^ 32

/-- Embedding of Engine::new (engine.rs lines 41-188): allocate the
compositing framebuffer of size fbsize, the four shaders and the quad vertex
buffer, turning each allocation failure into Err(EngineError::Generic); on
success the window rectangle is (50, 50, winsize) and running starts true. -/
def Engine.new (g : Graphics) (winsize fbsize : Vec2 ℕ) :
    Except EngineError EngineModel :=
  match Framebuffer.new g fbsize with
  | none => Except.error EngineError.Generic
  | some framebuffer =>
  match Shader.new g ShaderKind.layer_shader with
  | none => Except.error EngineError.Generic
  | some _layer_shader =>
  match Shader.new g ShaderKind.final_shader with
  | none => Except.error EngineError.Generic
  | some _final_shader =>
  match Shader.new g ShaderKind.static_shader with
  | none => Except.error EngineError.Generic
  | some _static_shader =>
  match Shader.new g ShaderKind.map_shader with
  | none => Except.error EngineError.Generic
  | some _map_shader =>
  match VertexBuffer.new_from_vec g quad with
  | none => Except.error EngineError.Generic
  | some _quad_vertexbuffer =>
  Except.ok
    { framebuffer := framebuffer
      rect := ⟨50, 50, i32_of_usize winsize.x, i32_of_usize winsize.y⟩
      running := true }

/-- The letterbox scale computed at the top of Engine::render (engine.rs
lines 201-208) from the framebuffer size and the current window rectangle. -/
def render_scale (fbsize : Vec2 ℕ) (r : Rect) : Vec2 ℚ :=
  let fb_aspect : ℚ := (fbsize.x : ℚ) / (fbsize.y : ℚ)
  let win_aspect : ℚ := (r.sx : ℚ) / (r.sy : ℚ)
  if win_aspect > fb_aspect then ⟨fb_aspect / win_aspect, 1⟩
  else ⟨1, win_aspect / fb_aspect⟩

/-- C2: for positive window and framebuffer dimensions, the scale is
(Av/Aw, 1) when the window aspect Aw exceeds the framebuffer aspect Av and
(1, Aw/Av) otherwise; both components are at most 1 and at least one
component equals 1. -/
theorem render_scale_letterbox (fbsize : Vec2 ℕ) (r : Rect)
    (hvx : 0 < fbsize.x) (hvy : 0 < fbsize.y)
    (hwx : 0 < r.sx) (hwy : 0 < r.sy) :
    (render_scale fbsize r =
      if ((r.sx : ℚ) / (r.sy : ℚ)) > ((fbsize.x : ℚ) / (fbsize.y : ℚ)) then
        ⟨((fbsize.x : ℚ) / (fbsize.y : ℚ)) / ((r.sx : ℚ) / (r.sy : ℚ)), 1⟩
      else ⟨1, ((r.sx : ℚ) / (r.sy : ℚ)) / ((fbsize.x : ℚ) / (fbsize.y : ℚ))⟩) ∧
    (render_scale fbsize r).x ≤ 1 ∧ (render_scale fbsize r).y ≤ 1 ∧
    ((render_scale fbsize r).x = 1 ∨ (render_scale fbsize r).y = 1) := by
  have hAv : (0 : ℚ) < (fbsize.x : ℚ) / (fbsize.y : ℚ) :=
    div_pos (by exact_mod_cast hvx) (by exact_mod_cast hvy)
  have hAw : (0 : ℚ) < (r.sx : ℚ) / (r.sy : ℚ) :=
    div_pos (by exact_mod_cast hwx) (by exact_mod_cast hwy)
  refine ⟨rfl, ?_⟩
  simp only [render_scale]
  split
  case isTrue h =>
    exact ⟨(div_le_one hAw).mpr (le_of_lt h), le_refl 1, Or.inr rfl⟩
  case isFalse h =>
    exact ⟨le_refl 1, (div_le_one hAv).mpr (not_lt.mp h), Or.inl rfl⟩

/-- Witness for C2 at the concrete sizes of the spec example: virtual
framebuffer 16 x 9, window 4 x 3, giving scale (1, 3/4). -/
theorem render_scale_letterbox_witness :
    (render_scale ⟨16, 9⟩ ⟨0, 0, 4, 3⟩ = ⟨1, 3 / 4⟩) ∧
    (render_scale ⟨16, 9⟩ ⟨0, 0, 4, 3⟩).x ≤ 1 ∧
    (render_scale ⟨16, 9⟩ ⟨0, 0, 4, 3⟩).y ≤ 1 ∧
    ((render_scale ⟨16, 9⟩ ⟨0, 0, 4, 3⟩).x = 1 ∨
     (render_scale ⟨16, 9⟩ ⟨0, 0, 4, 3⟩).y = 1) :=
  ⟨by simp only [render_scale]; norm_num [Vec2.mk.injEq],
   (render_scale_letterbox ⟨16, 9⟩ ⟨0, 0, 4, 3⟩
      (by decide) (by decide) (by decide) (by decide)).2⟩

/-- The body of the per-layer loop in Engine::render (engine.rs lines
210-216): bind the layer's output as texture 0, bind the layer shader, set
its sampler uniform, bind the quad vertex buffer, draw a 4-vertex fan. -/
def layerCmds (t : Tex) : List Cmd :=
  [Cmd.bindTexture 0 t, Cmd.bindShader ShaderKind.layer_shader,
   Cmd.setUniform1i Uniform.u_texture 0, Cmd.bindVertexBuffer,
   Cmd.drawTriangleFan 4]

/-- The final blit in Engine::render (engine.rs lines 217-223): bind the
window as target, the compositing framebuffer as texture 0, the final shader
with the letterbox scale uniform, the quad vertex buffer, and draw one
4-vertex fan. -/
def finalCmds (scale : Vec2 ℚ) : List Cmd :=
  [Cmd.bindTarget Target.window, Cmd.bindTexture 0 Tex.engineFB,
   Cmd.bindShader ShaderKind.final_shader,
   Cmd.setUniform2f Uniform.u_scale scale,
   Cmd.setUniform1i Uniform.u_texture 0, Cmd.bindVertexBuffer,
   Cmd.drawTriangleFan 4]

/-- Embedding of Engine::render (engine.rs lines 200-224) as the sequence of
graphics calls it issues: compute the letterbox scale, bind the compositing
framebuffer as target (once, before the loop), run the per-layer loop over
the layers in the caller-supplied order, then issue the final blit.  Each
layer is represented by its output framebuffer handle, the only thing render
reads from it. -/
def Engine.render (e : EngineModel) (layers : List Tex) : List Cmd :=
  let scale := render_scale e.framebuffer.size e.rect
  Cmd.bindTarget Target.engineFramebuffer ::
    (layers.flatMap layerCmds ++ finalCmds scale)

/-- The binding state of the graphics context while a command list plays:
current render target, texture bound to slot 0, current shader, last value
set for the u_scale uniform, and whether the quad vertex buffer is bound. -/
structure GState where
  target : Option Target
  texture0 : Option Tex
  shader : Option ShaderKind
  scale_uniform : Option (Vec2 ℚ)
  vb_bound : Bool
deriving DecidableEq, Repr

/-- Initial graphics binding state: nothing bound. -/
def GState.init : GState := ⟨none, none, none, none, false⟩

/-- Effect of one graphics call on the binding state. -/
def GState.apply (s : GState) : Cmd → GState
  | Cmd.bindTarget t => { s with target := some t }
  | Cmd.bindTexture slot t =>
      if slot = 0 then { s with texture0 := some t } else s
  | Cmd.bindShader k => { s with shader := some k }
  | Cmd.setUniform2f Uniform.u_scale v => { s with scale_uniform := some v }
  | Cmd.setUniform2f Uniform.u_texture _ => s
  | Cmd.setUniform1i _ _ => s
  | Cmd.bindVertexBuffer => { s with vb_bound := true }
  | Cmd.drawTriangleFan _ => s
  | Cmd.clear _ => s

/-- The draw calls a command list issues, each with the binding state in
effect at that draw and its vertex count. -/
def drawStates (s : GState) : List Cmd → List (GState × ℕ)
  | [] => []
  | Cmd.drawTriangleFan n :: cs =>
      (s, n) :: drawStates (s.apply (Cmd.drawTriangleFan n)) cs
  | c :: cs => drawStates (s.apply c) cs

/-- Number of commands binding the compositing framebuffer as render
target. -/
def countBindEngineFB (cmds : List Cmd) : ℕ :=
  cmds.countP (fun c =>
    match c with
    | Cmd.bindTarget Target.engineFramebuffer => true
    | _ => false)

/-- Draws recorded while playing the per-layer loop followed by the final
blit, from an arbitrary starting binding state. -/
theorem drawStates_render_aux (sc : Vec2 ℚ) (layers : List Tex)
    (tg : Option Target) (tx : Option Tex) (sh : Option ShaderKind)
    (su : Option (Vec2 ℚ)) (vb : Bool) :
    drawStates ⟨tg, tx, sh, su, vb⟩ (layers.flatMap layerCmds ++ finalCmds sc) =
      layers.map (fun t =>
        (⟨tg, some t, some ShaderKind.layer_shader, su, true⟩, 4))
      ++ [(⟨some Target.window, some Tex.engineFB,
           some ShaderKind.final_shader, some sc, true⟩, 4)] := by
  induction layers generalizing tx sh vb with
  | nil => simp [finalCmds, drawStates, GState.apply]
  | cons t ts ih =>
      simp only [List.flatMap_cons, List.cons_append, List.map_cons, layerCmds,
        drawStates, GState.apply, List.append_assoc]
      simpa using ih (some t) (some ShaderKind.layer_shader) true

/-- C5 (amended): render binds the compositing framebuffer as render target
exactly once, before the per-layer loop; every per-layer draw is a 4-vertex
fan issued, in the caller-supplied layer order, while the compositing
framebuffer is the bound target, that layer's output is the bound texture,
the layer shader is bound and the quad vertex buffer is bound; after all
layers exactly one further 4-vertex fan is issued with the window as bound
target, the compositing framebuffer as bound texture, the final shader bound
and the letterbox scale set as the u_scale uniform. -/
theorem render_draw_sequence (e : EngineModel) (layers : List Tex) :
    drawStates GState.init (Engine.render e layers) =
      layers.map (fun t =>
        (⟨some Target.engineFramebuffer, some t,
          some ShaderKind.layer_shader, none, true⟩, 4))
      ++ [(⟨some Target.window, some Tex.engineFB,
           some ShaderKind.final_shader,
           some (render_scale e.framebuffer.size e.rect), true⟩, 4)] ∧
    countBindEngineFB (Engine.render e layers) = 1 := by
  constructor
  · have aux := drawStates_render_aux (render_scale e.framebuffer.size e.rect)
      layers (some Target.engineFramebuffer) none none none false
    simpa [Engine.render, drawStates, GState.apply, GState.init] using aux
  · simp only [Engine.render, countBindEngineFB, List.countP_cons,
      List.countP_append]
    have hlayer : ∀ ts : List Tex,
        (ts.flatMap layerCmds).countP (fun c =>
          match c with
          | Cmd.bindTarget Target.engineFramebuffer => true
          | _ => false) = 0 := by
      intro ts
      induction ts with
      | nil => rfl
      | cons t ts ih => simp [List.flatMap_cons, layerCmds, List.countP_cons, ih]
    have hfinal :
        (finalCmds (render_scale e.framebuffer.size e.rect)).countP (fun c =>
          match c with
          | Cmd.bindTarget Target.engineFramebuffer => true
          | _ => false) = 0 := by
      simp [finalCmds, List.countP_cons]
    simp [hlayer, hfinal]

/-- C5 counterexample: with two layers, the claim's per-layer command list
would issue at least two binds of the compositing framebuffer as target, but
the trace of Engine::render contains exactly one such bind (hoisted before
the loop, engine.rs line 209). -/
theorem render_bind_target_counterexample :
    countBindEngineFB
      (Engine.render ⟨⟨⟨640, 360⟩⟩, ⟨50, 50, 800, 600⟩, true⟩
        [Tex.layerOutput 0, Tex.layerOutput 1]) = 1 ∧
    ¬ (2 ≤ countBindEngineFB
        (Engine.render ⟨⟨⟨640, 360⟩⟩, ⟨50, 50, 800, 600⟩, true⟩
          [Tex.layerOutput 0, Tex.layerOutput 1])) := by
  constructor <;> decide

/-- C3: at a zero-height window the code of Engine::render still performs the
aspect division (with zero denominator) and still issues the final blit to
the window surface, instead of treating the frame as a no-render frame: the
trace at window rectangle 800 x 0 contains the window target bind and one
final 4-vertex fan draw. -/
theorem render_zero_window_still_blits :
    Cmd.bindTarget Target.window ∈
      Engine.render ⟨⟨⟨640, 360⟩⟩, ⟨50, 50, 800, 0⟩, true⟩ [] ∧
    (Engine.render ⟨⟨⟨640, 360⟩⟩, ⟨50, 50, 800, 0⟩, true⟩ []).countP
      (fun c =>
        match c with
        | Cmd.drawTriangleFan _ => true
        | _ => false) = 1 := by
  constructor <;> decide

/-- The two panic messages of StaticLayer::new_from_mat (staticlayer.rs lines
14-15), raised through Result::expect. -/
inductive PanicMsg
  | unable_to_create_framebuffer
  | unable_to_create_texture
deriving DecidableEq, Repr

/-- Result of running a fallible constructor: a value together with the
graphics calls it issued, a returned error, or a panic (Rust process abort
through expect / panic). -/
inductive Outcome (α : Type)
  | ok (a : α) (cmds : List Cmd)
  | error (e : EngineError)
  | panicked (m : PanicMsg)
deriving DecidableEq, Repr

/-- A static layer, reduced to its private framebuffer (the _engine back
reference carries no claim-relevant state). -/
structure StaticLayer where
  framebuffer : Framebuffer
deriving DecidableEq, Repr

/-- Embedding of StaticLayer::new_from_mat (staticlayer.rs lines 13-27):
allocate a private framebuffer of the engine's framebuffer size (not the
image's size) and a texture from the image; either allocation failure goes
through Result::expect, i.e. panics; on success it bakes the image into the
private target with one draw pass and returns the layer. -/
def StaticLayer.new_from_mat (g : Graphics) (engine_fbsize : Vec2 ℕ)
    (image : Mat) : Outcome StaticLayer :=
  match Framebuffer.new g engine_fbsize with
  | none => Outcome.panicked PanicMsg.unable_to_create_framebuffer
  | some framebuffer =>
  match Texture2D.new_from_mat g image with
  | none => Outcome.panicked PanicMsg.unable_to_create_texture
  | some texture =>
  Outcome.ok { framebuffer := framebuffer }
    [Cmd.bindTarget Target.layerFramebuffer, Cmd.clear 0xFFFFFF00,
     Cmd.bindTexture 0 texture, Cmd.bindShader ShaderKind.static_shader,
     Cmd.setUniform1i Uniform.u_texture 0, Cmd.bindVertexBuffer,
     Cmd.drawTriangleFan 4]

/-- A device on which every allocation succeeds. -/
def gAllOK : Graphics := ⟨fun _ => true, fun _ => true, fun _ => true, true⟩

/-- A device on which framebuffer allocation fails and everything else
succeeds. -/
def gNoFB : Graphics := ⟨fun _ => false, fun _ => true, fun _ => true, true⟩

/-- A device on which texture allocation fails and everything else
succeeds. -/
def gNoTex : Graphics := ⟨fun _ => true, fun _ => true, fun _ => false, true⟩

/-- A framebuffer allocated by Framebuffer.new has the requested size. -/
theorem Framebuffer.new_size (g : Graphics) (s : Vec2 ℕ) (fb : Framebuffer)
    (h : Framebuffer.new g s = some fb) : fb.size = s := by
  unfold Framebuffer.new at h
  split at h
  · cases h; rfl
  · cases h

/-- A successfully constructed engine has the framebuffer allocated at the
requested compositing size, the window rectangle at (50, 50, winsize) and
the running flag true. -/
theorem Engine.new_ok (g : Graphics) (winsize fbsize : Vec2 ℕ)
    (e : EngineModel) (h : Engine.new g winsize fbsize = Except.ok e) :
    e = ⟨⟨fbsize⟩, ⟨50, 50, i32_of_usize winsize.x, i32_of_usize winsize.y⟩,
         true⟩ := by
  unfold Engine.new Framebuffer.new Shader.new VertexBuffer.new_from_vec at h
  by_cases h1 : g.fb_alloc_ok fbsize = true <;> simp [h1] at h
  by_cases h2 : g.shader_ok ShaderKind.layer_shader = true <;> simp [h2] at h
  by_cases h3 : g.shader_ok ShaderKind.final_shader = true <;> simp [h3] at h
  by_cases h4 : g.shader_ok ShaderKind.static_shader = true <;> simp [h4] at h
  by_cases h5 : g.shader_ok ShaderKind.map_shader = true <;> simp [h5] at h
  by_cases h6 : g.vb_ok = true <;> simp [h6] at h
  exact h.symm

/-- C4 (code bug): on a device where the private framebuffer or the source
texture cannot be allocated, StaticLayer::new_from_mat panics through
Result::expect instead of returning Err(EngineError::Generic) as its
Result-typed signature declares. -/
theorem static_layer_alloc_failure_panics :
    StaticLayer.new_from_mat gNoFB ⟨640, 360⟩ ⟨⟨100, 50⟩⟩ =
      Outcome.panicked PanicMsg.unable_to_create_framebuffer ∧
    StaticLayer.new_from_mat gNoTex ⟨640, 360⟩ ⟨⟨100, 50⟩⟩ =
      Outcome.panicked PanicMsg.unable_to_create_texture ∧
    (∀ err : EngineError,
      StaticLayer.new_from_mat gNoFB ⟨640, 360⟩ ⟨⟨100, 50⟩⟩ ≠
        Outcome.error err) ∧
    (∀ err : EngineError,
      StaticLayer.new_from_mat gNoTex ⟨640, 360⟩ ⟨⟨100, 50⟩⟩ ≠
        Outcome.error err) := by
  refine ⟨rfl, rfl, ?_, ?_⟩ <;> intro err <;> cases err <;> decide

/-- C9: every successfully constructed StaticLayer has a private framebuffer
of the engine's compositing framebuffer size, whatever the image's
dimensions, and Engine::new fixes that compositing size to its fbsize
argument. -/
theorem static_layer_framebuffer_size :
    (∀ (g : Graphics) (fbsize : Vec2 ℕ) (image : Mat) (layer : StaticLayer)
        (cmds : List Cmd),
      StaticLayer.new_from_mat g fbsize image = Outcome.ok layer cmds →
      layer.framebuffer.size = fbsize) ∧
    (∀ (g : Graphics) (winsize fbsize : Vec2 ℕ) (e : EngineModel),
      Engine.new g winsize fbsize = Except.ok e →
      e.framebuffer.size = fbsize) := by
  constructor
  · intro g fbsize image layer cmds h
    unfold StaticLayer.new_from_mat at h
    cases hfb : Framebuffer.new g fbsize with
    | none => rw [hfb] at h; cases h
    | some fb =>
        rw [hfb] at h
        cases htex : Texture2D.new_from_mat g image with
        | none => rw [htex] at h; cases h
        | some texture =>
            rw [htex] at h
            cases h
            exact Framebuffer.new_size g fbsize fb hfb
  · intro g winsize fbsize e h
    rw [Engine.new_ok g winsize fbsize e h]

/-- Witness for C9: on an all-succeeding device, a 123 x 45 image yields a
static layer whose framebuffer is the engine's 640 x 360 compositing size,
and the engine built with fbsize 640 x 360 carries that framebuffer. -/
theorem static_layer_framebuffer_size_witness :
    (StaticLayer.new_from_mat gAllOK ⟨640, 360⟩ ⟨⟨123, 45⟩⟩ =
      Outcome.ok ⟨⟨⟨640, 360⟩⟩⟩
        [Cmd.bindTarget Target.layerFramebuffer, Cmd.clear 0xFFFFFF00,
         Cmd.bindTexture 0 (Tex.texture2d ⟨123, 45⟩),
         Cmd.bindShader ShaderKind.static_shader,
         Cmd.setUniform1i Uniform.u_texture 0, Cmd.bindVertexBuffer,
         Cmd.drawTriangleFan 4]) ∧
    (⟨⟨⟨640, 360⟩⟩⟩ : StaticLayer).framebuffer.size = ⟨640, 360⟩ ∧
    Engine.new gAllOK ⟨800, 600⟩ ⟨640, 360⟩ =
      Except.ok ⟨⟨⟨640, 360⟩⟩, ⟨50, 50, 800, 600⟩, true⟩ ∧
    (⟨⟨⟨640, 360⟩⟩, ⟨50, 50, 800, 600⟩, true⟩ :
        EngineModel).framebuffer.size = ⟨640, 360⟩ :=
  ⟨by decide,
   static_layer_framebuffer_size.1 gAllOK ⟨640, 360⟩ ⟨⟨123, 45⟩⟩ ⟨⟨⟨640, 360⟩⟩⟩
     [Cmd.bindTarget Target.layerFramebuffer, Cmd.clear 0xFFFFFF00,
      Cmd.bindTexture 0 (Tex.texture2d ⟨123, 45⟩),
      Cmd.bindShader ShaderKind.static_shader,
      Cmd.setUniform1i Uniform.u_texture 0, Cmd.bindVertexBuffer,
      Cmd.drawTriangleFan 4] (by decide),
   by rfl,
   static_layer_framebuffer_size.2 gAllOK ⟨800, 600⟩ ⟨640, 360⟩
     ⟨⟨⟨640, 360⟩⟩, ⟨50, 50, 800, 600⟩, true⟩ (by rfl)⟩

/-- Window events as seen by Engine::handle (engine.rs lines 232-239): the
match distinguishes only Event::Close; every other event falls into the
wildcard arm, so all of them are collapsed into one constructor. -/
inductive Event
  | Close
  | other
deriving DecidableEq, Repr

/-- Embedding of the Window::handle implementation for Engine (engine.rs
lines 232-239): Close clears the running flag; everything else is ignored. -/
def Engine.handle (e : EngineModel) (ev : Event) : EngineModel :=
  match ev with
  | Event.Close => { e with running := false }
  | Event.other => e

/-- Embedding of Engine::is_running (engine.rs lines 190-192). -/
def Engine.is_running (e : EngineModel) : Bool := e.running

/-- A call into the external System collaborator; flush carries the number of
windows handed to it. -/
inductive SysCall
  | flush (nwindows : ℕ)
deriving DecidableEq, Repr

/-- Embedding of Engine::update (engine.rs lines 194-198): build the
one-element window list holding only the engine itself and call
system.flush on it; the layers argument is declared _layers and never read.
Modelled from the spec: System::flush (external, not under src/) polls the
pending system events and delivers each one to the window's handler, so the
pending events are passed explicitly and folded through Engine.handle. -/
def Engine.update (e : EngineModel) (pending : List Event)
    (_layers : List Tex) : EngineModel × List SysCall :=
  (pending.foldl Engine.handle e, [SysCall.flush 1])

/-- The operations that can act on an engine after construction: a frame
update (with the system events it flushes), render, present, a direct event
delivery, and the window-rectangle setter (engine.rs lines 245-247). -/
inductive Op
  | update (pending : List Event) (layers : List Tex)
  | render (layers : List Tex)
  | present
  | handle (ev : Event)
  | set_rect (r : Rect)

/-- Effect of one operation on the engine state: render and present only talk
to the graphics collaborator (their call traces are modelled separately) and
leave the engine state unchanged; update flushes events through the handler;
set_rect replaces the window rectangle. -/
def Engine.step (e : EngineModel) : Op → EngineModel
  | Op.update pending layers => (Engine.update e pending layers).1
  | Op.render _ => e
  | Op.present => e
  | Op.handle ev => Engine.handle e ev
  | Op.set_rect r => { e with rect := r }

/-- No event delivery can set a cleared running flag again. -/
theorem handle_keeps_stopped (e : EngineModel) (ev : Event)
    (h : e.running = false) : (Engine.handle e ev).running = false := by
  cases ev <;> simp [Engine.handle, h]

/-- No flushed event list can set a cleared running flag again. -/
theorem foldl_handle_keeps_stopped (evs : List Event) (e : EngineModel)
    (h : e.running = false) :
    (evs.foldl Engine.handle e).running = false := by
  induction evs generalizing e with
  | nil => exact h
  | cons ev evs ih => exact ih _ (handle_keeps_stopped e ev h)

/-- No operation can set a cleared running flag again. -/
theorem step_keeps_stopped (e : EngineModel) (op : Op)
    (h : e.running = false) : (Engine.step e op).running = false := by
  cases op with
  | update pending layers =>
      exact foldl_handle_keeps_stopped pending e h
  | render layers => exact h
  | present => exact h
  | handle ev => exact handle_keeps_stopped e ev h
  | set_rect r => exact h

/-- C7: the running flag starts true at construction; delivering Close
clears it; and after a Close has been handled, is_running stays false under
every further sequence of operations (updates with any flushed events,
render, present, direct event deliveries, rectangle changes). -/
theorem running_close_irreversible :
    (∀ (g : Graphics) (winsize fbsize : Vec2 ℕ) (e : EngineModel),
      Engine.new g winsize fbsize = Except.ok e →
      Engine.is_running e = true) ∧
    (∀ e : EngineModel,
      Engine.is_running (Engine.handle e Event.Close) = false) ∧
    (∀ (e : EngineModel) (ops : List Op),
      Engine.is_running
        (List.foldl Engine.step (Engine.handle e Event.Close) ops) = false) := by
  refine ⟨?_, ?_, ?_⟩
  · intro g winsize fbsize e h
    rw [Engine.new_ok g winsize fbsize e h]
    rfl
  · intro e
    rfl
  · intro e ops
    have hstart : (Engine.handle e Event.Close).running = false := rfl
    have : ∀ (l : List Op) (s : EngineModel), s.running = false →
        (List.foldl Engine.step s l).running = false := by
      intro l
      induction l with
      | nil => intro s hs; exact hs
      | cons op l ih => intro s hs; exact ih _ (step_keeps_stopped s op hs)
    exact this ops _ hstart

/-- Witness for C7: a concrete engine is running right after construction,
stops on Close, and stays stopped across a present, an update flushing a
non-Close event, and another non-Close delivery. -/
theorem running_close_irreversible_witness :
    Engine.is_running
      (⟨⟨⟨640, 360⟩⟩, ⟨50, 50, 800, 600⟩, true⟩ : EngineModel) = true ∧
    Engine.is_running
      (Engine.handle ⟨⟨⟨640, 360⟩⟩, ⟨50, 50, 800, 600⟩, true⟩
        Event.Close) = false ∧
    Engine.is_running
      (List.foldl Engine.step
        (Engine.handle ⟨⟨⟨640, 360⟩⟩, ⟨50, 50, 800, 600⟩, true⟩ Event.Close)
        [Op.present, Op.update [Event.other] [], Op.handle Event.other]) =
      false :=
  ⟨running_close_irreversible.1 gAllOK ⟨800, 600⟩ ⟨640, 360⟩
      ⟨⟨⟨640, 360⟩⟩, ⟨50, 50, 800, 600⟩, true⟩ (by rfl),
   running_close_irreversible.2.1 ⟨⟨⟨640, 360⟩⟩, ⟨50, 50, 800, 600⟩, true⟩,
   running_close_irreversible.2.2 ⟨⟨⟨640, 360⟩⟩, ⟨50, 50, 800, 600⟩, true⟩
     [Op.present, Op.update [Event.other] [], Op.handle Event.other]⟩

/-- C8: Engine::update never reads its layers argument: for the same engine
state and the same pending system events, any two layer lists (the empty one
included) give exactly the same resulting state and the same system calls. -/
theorem update_ignores_layers (e : EngineModel) (pending : List Event)
    (layers1 layers2 : List Tex) :
    Engine.update e pending layers1 = Engine.update e pending layers2 ∧
    Engine.update e pending layers1 = Engine.update e pending [] := by
  exact ⟨rfl, rfl⟩

/-- Embedding of the layer-blit vertex shader layer_vs (engine.rs lines
48-56), as the pair (f_tex, gl_Position.xy); gl_Position.zw is the constant
(0, 1) and is omitted. -/
def layer_vs (v_pos : Vec2 ℚ) : Vec2 ℚ × Vec2 ℚ :=
  (⟨v_pos.x, v_pos.y⟩, ⟨-1 + 2 * v_pos.x, -1 + 2 * v_pos.y⟩)

/-- Embedding of the final-blit vertex shader final_vs (engine.rs lines
71-80), as the pair (f_tex, gl_Position.xy): the last stage swaps the Y
output and multiplies by the u_scale uniform. -/
def final_vs (u_scale : Vec2 ℚ) (v_pos : Vec2 ℚ) : Vec2 ℚ × Vec2 ℚ :=
  (⟨v_pos.x, v_pos.y⟩,
   ⟨u_scale.x * (-1 + 2 * v_pos.x), u_scale.y * (1 - 2 * v_pos.y)⟩)

/-- C10: the final-blit vertex shader maps a quad vertex (x, y) to clip
position (u_scale.x * (-1 + 2x), u_scale.y * (1 - 2y)) while the layer-blit
shader maps it to (-1 + 2x, -1 + 2y); the final stage's y output is the
negation of the layer stage's y output scaled by u_scale.y, so at unit scale
the final blit mirrors the virtual framebuffer vertically while the
per-layer pass applies no flip. -/
theorem final_vs_flips_y (u_scale v_pos : Vec2 ℚ) :
    (final_vs u_scale v_pos).2 =
      ⟨u_scale.x * (-1 + 2 * v_pos.x), u_scale.y * (1 - 2 * v_pos.y)⟩ ∧
    (layer_vs v_pos).2 = ⟨-1 + 2 * v_pos.x, -1 + 2 * v_pos.y⟩ ∧
    (final_vs u_scale v_pos).2.y = -(u_scale.y * (layer_vs v_pos).2.y) ∧
    (final_vs ⟨1, 1⟩ v_pos).2.y = -((layer_vs v_pos).2.y) ∧
    (final_vs ⟨1, 1⟩ v_pos).2.x = (layer_vs v_pos).2.x := by
  refine ⟨rfl, rfl, ?_, ?_, ?_⟩ <;> simp [final_vs, layer_vs] <;> ring

end Kvasir
